import Mathlib

set_option maxRecDepth 8000

/-!
Verification of the session registry, packet dispatch router, nonce allocator,
staged server-socket opener and network lifecycle of `src/brickd/network.c`
(brickd network subsystem), via a shallow embedding of the C code.

Modelling conventions:
* A `Client` record carries the fields of the C `Client` struct that this file
  (network.c) reads or writes: its display name, its authentication nonce and
  its `disconnected` flag.  The pending-request state lives in the external
  client module; the external contract `client_dispatch_response(client,
  response, force, ...)` is modelled by a `pmatch : Nat → Bool` oracle keyed
  by the client's name, reporting whether that client has a matching pending
  request for the packet being dispatched.
* `network_dispatch_response` is observationally modelled as the list of
  observable events it performs in order: log calls and
  `client_dispatch_response` calls (with their `force` flag).
* The daemonlib `Array` holding `_clients` is modelled as a `List Client` in
  registration order; `array_remove` at index `i` is `List.eraseIdx i`.
* Calls into external collaborators that can fail (`socket_*`,
  `event_add_source`, `array_create`, `array_append`, `client_create`) are
  modelled by Boolean failure-injection inputs; the uint32 nonce counter is a
  `Nat` reduced modulo `2 ^ 32` exactly where the C `uint32_t` wraps.
-/

/-- `2 ^ 32`, the modulus of the C `uint32_t` nonce counter
`_next_authentication_nonce`. -/
def UINT32_MOD : Nat := 4294967296

/-- The fields of the C `Client` struct that network.c itself touches:
the display name (abstracted to a `Nat` label), the authentication nonce
passed to `client_create`, and the `disconnected` flag read by
`network_cleanup_clients`. -/
structure Client where
  name : Nat
  nonce : Nat
  disconnected : Bool
deriving DecidableEq

/-- Observable events of `network_dispatch_response`, in program order:
the log statements and the calls to the external contract
`client_dispatch_response(client, response, force, ...)`. -/
inductive DispatchEvent where
  | log_drop_callback : DispatchEvent
  | log_drop_response : DispatchEvent
  | log_broadcast_callback : Nat → DispatchEvent
  | log_dispatch_response : Nat → DispatchEvent
  | log_warn_unmatched : Nat → DispatchEvent
  | deliver : Client → Bool → DispatchEvent
deriving DecidableEq

/-- The first `for` loop of the nonzero-sequence branch of
`network_dispatch_response`: call `client_dispatch_response(client, response,
false, false)` on each client in registration order and return immediately
once a call reports a match (`> 0`).  Returns the emitted delivery events and
whether a match was found. -/
def client_dispatch_scan (pmatch : Nat → Bool) : List Client → List DispatchEvent × Bool
  | [] => ([], false)
  | c :: rest =>
    if pmatch c.name then
      ([DispatchEvent.deliver c false], true)
    else
      let r := client_dispatch_scan pmatch rest
      (DispatchEvent.deliver c false :: r.1, r.2)

/-- `network_dispatch_response(Packet *response)` from network.c, as the list
of observable events it performs.  `clients` is the `_clients` array in
registration order, `seq` is `packet_header_get_sequence_number(&response->header)`,
and `pmatch` is the external pending-request-match oracle. -/
def network_dispatch_response (clients : List Client) (seq : Nat)
    (pmatch : Nat → Bool) : List DispatchEvent :=
  if clients.length = 0 then
    if seq = 0 then
      [DispatchEvent.log_drop_callback]
    else
      [DispatchEvent.log_drop_response]
  else if seq = 0 then
    DispatchEvent.log_broadcast_callback clients.length ::
      clients.map (fun c => DispatchEvent.deliver c true)
  else
    let scan := client_dispatch_scan pmatch clients
    DispatchEvent.log_dispatch_response clients.length ::
      (if scan.2 then
        scan.1
      else
        scan.1 ++ DispatchEvent.log_warn_unmatched seq ::
          clients.map (fun c => DispatchEvent.deliver c true))

/-- The backwards loop of `network_cleanup_clients`: for `i` from
`_clients.count - 1` down to `0`, look at the client at index `i` and, if its
`disconnected` flag is set, `array_remove` it (destroying it via
`client_destroy`).  Modelled from the spec where daemonlib is not in src/:
`array_remove` uses the shift-down removal strategy, i.e. `List.eraseIdx`.
The function returns the remaining registry and the destroyed clients in
destruction order. -/
def network_cleanup_clients_go : Nat → List Client → List Client → List Client × List Client
  | 0, cs, destroyed => (cs, destroyed)
  | Nat.succ i, cs, destroyed =>
    match cs[i]? with
    | some c =>
      if c.disconnected then
        network_cleanup_clients_go i (cs.eraseIdx i) (destroyed ++ [c])
      else
        network_cleanup_clients_go i cs destroyed
    | none => network_cleanup_clients_go i cs destroyed

/-- `network_cleanup_clients(void)` from network.c: backwards scan of the
client array, removing (and destroying) every client marked disconnected.
Returns the remaining registry and the destroyed clients in destruction
order. -/
def network_cleanup_clients (clients : List Client) : List Client × List Client :=
  network_cleanup_clients_go clients.length clients []

/-- The global state of network.c that `network_create_client` touches:
the `_clients` array and the `_next_authentication_nonce` counter
(a `uint32_t`, kept reduced modulo `2 ^ 32`). -/
structure NetworkState where
  clients : List Client
  next_authentication_nonce : Nat
deriving DecidableEq

/-- `network_create_client(const char *name, IO *io)` from network.c.
`append_ok` injects the outcome of `array_append(&_clients)` and
`client_create_ok` the outcome of the external
`client_create(client, name, io, _next_authentication_nonce++, NULL)`.
On append failure the function returns NULL with nothing changed; on
`client_create` failure the just-appended slot is removed again
(`array_remove(&_clients, _clients.count - 1, NULL)`) but the post-increment
of the nonce counter has already happened.  Returns the new state and the
created client (`none` models the NULL return). -/
def network_create_client (st : NetworkState) (name : Nat)
    (append_ok : Bool) (client_create_ok : Bool) : NetworkState × Option Client :=
  if append_ok = false then
    (st, none)
  else
    let nonce := st.next_authentication_nonce % UINT32_MOD
    let st1 : NetworkState :=
      { st with next_authentication_nonce := (st.next_authentication_nonce + 1) % UINT32_MOD }
    if client_create_ok = false then
      (st1, none)
    else
      let c : Client := { name := name, nonce := nonce, disconnected := false }
      ({ st1 with clients := st.clients ++ [c] }, some c)

/-- A run of successive fully-successful `network_create_client` calls, one
per name in `names`; returns the final state and the created clients in
creation order. -/
def network_create_run : NetworkState → List Nat → NetworkState × List Client
  | st, [] => (st, [])
  | st, name :: rest =>
    let r1 := network_create_client st name true true
    let r2 := network_create_run r1.1 rest
    (r2.1, r1.2.toList ++ r2.2)

/-- Resource-relevant actions performed by `network_open_server_socket`, in
program order: acquiring the resolved-address list
(`socket_hostname_to_address`), acquiring the socket (`socket_create`),
registering the event source (`event_add_source`), and the releases
(`socket_destroy`, `freeaddrinfo`). -/
inductive SocketAction where
  | alloc_address : SocketAction
  | create_socket : SocketAction
  | add_event : SocketAction
  | destroy_socket : SocketAction
  | free_address : SocketAction
deriving DecidableEq, Fintype

/-- The two releasable resources of `network_open_server_socket`: the
resolved-address list and the socket. -/
inductive SocketResource where
  | address : SocketResource
  | socket : SocketResource
deriving DecidableEq, Fintype

/-- Which resource a `SocketAction` acquires, if any. -/
def socket_action_acquires : SocketAction → Option SocketResource
  | SocketAction.alloc_address => some SocketResource.address
  | SocketAction.create_socket => some SocketResource.socket
  | _ => none

/-- Which resource a `SocketAction` releases, if any. -/
def socket_action_releases : SocketAction → Option SocketResource
  | SocketAction.free_address => some SocketResource.address
  | SocketAction.destroy_socket => some SocketResource.socket
  | _ => none

/-- Failure-injection inputs for `network_open_server_socket`: one Boolean
per fallible external step, plus whether the first resolved address is IPv6
(which gates the dual-stack step) and whether the platform is Windows (which
gates the address-reuse step, compiled out under `_WIN32`). -/
structure OpenInput where
  resolve_ok : Bool
  create_ok : Bool
  open_ok : Bool
  ipv6 : Bool
  dual_stack_ok : Bool
  win32 : Bool
  reuse_ok : Bool
  bind_ok : Bool
  listen_ok : Bool
  event_ok : Bool
deriving DecidableEq

/-- The `cleanup:` switch of `network_open_server_socket`: at phase 2 destroy
the socket and fall through to freeing the resolved-address list, at phase 1
free the resolved-address list only, otherwise do nothing. -/
def open_cleanup (phase : Nat) : List SocketAction :=
  if phase = 2 then
    [SocketAction.destroy_socket, SocketAction.free_address]
  else if phase = 1 then
    [SocketAction.free_address]
  else
    []

/-- `network_open_server_socket(Socket *server_socket, uint16_t port, ...)`
from network.c, as its return value (`0` success, `-1` failure) paired with
the resource-relevant actions it performed, in order.  The `if` chain mirrors
the C control flow: resolve, create, open, dual-stack toggle (IPv6 only),
address-reuse toggle (non-Windows only), bind, listen, event registration;
each failure jumps to `open_cleanup` with the phase reached, and on success
the resolved-address list is freed and phase 3 skips the cleanup cases. -/
def network_open_server_socket (inp : OpenInput) : Int × List SocketAction :=
  if !inp.resolve_ok then
    (-1, open_cleanup 0)
  else if !inp.create_ok then
    (-1, SocketAction.alloc_address :: open_cleanup 1)
  else if !inp.open_ok then
    (-1, SocketAction.alloc_address :: SocketAction.create_socket :: open_cleanup 2)
  else if inp.ipv6 && !inp.dual_stack_ok then
    (-1, SocketAction.alloc_address :: SocketAction.create_socket :: open_cleanup 2)
  else if !inp.win32 && !inp.reuse_ok then
    (-1, SocketAction.alloc_address :: SocketAction.create_socket :: open_cleanup 2)
  else if !inp.bind_ok then
    (-1, SocketAction.alloc_address :: SocketAction.create_socket :: open_cleanup 2)
  else if !inp.listen_ok then
    (-1, SocketAction.alloc_address :: SocketAction.create_socket :: open_cleanup 2)
  else if !inp.event_ok then
    (-1, SocketAction.alloc_address :: SocketAction.create_socket :: open_cleanup 2)
  else
    (0, [SocketAction.alloc_address, SocketAction.create_socket,
         SocketAction.add_event, SocketAction.free_address])

/-- All steps of `network_open_server_socket` succeed: the condition under
which the C function reaches phase 3 and returns 0. -/
def open_all_ok (inp : OpenInput) : Bool :=
  inp.resolve_ok && inp.create_ok && inp.open_ok &&
    (!inp.ipv6 || inp.dual_stack_ok) && (inp.win32 || inp.reuse_ok) &&
    inp.bind_ok && inp.listen_ok && inp.event_ok

/-- Inputs of `network_init`: whether `authentication.secret` is configured,
the value of `get_random_uint32()`, the outcome of `array_create`, the
outcome of opening the plain server socket, the configured
`listen.websocket_port`, and the outcome of opening the WebSocket server
socket. -/
structure InitInput where
  auth_secret : Bool
  random_nonce : Nat
  array_create_ok : Bool
  plain_open_ok : Bool
  websocket_port : Nat
  websocket_open_ok : Bool
deriving DecidableEq

/-- Observable outcome of `network_init`: its return value, the nonce-counter
value it left behind, whether the client array was created and whether it was
destroyed again on the failure path, and the `_server_socket_plain_open` /
`_server_socket_websocket_open` flags. -/
structure InitResult where
  result : Int
  nonce_counter : Nat
  array_created : Bool
  array_destroyed : Bool
  plain_open : Bool
  websocket_open : Bool
deriving DecidableEq

/-- `network_init(void)` from network.c: seed the nonce counter if
authentication is configured, create the client array (failing returns -1
at once), try to open the plain server socket, try to open the WebSocket
server socket only if `listen.websocket_port` is nonzero, and fail —
destroying the client array — exactly when neither socket opened. -/
def network_init (inp : InitInput) : InitResult :=
  let nonce := if inp.auth_secret then inp.random_nonce else 0
  if !inp.array_create_ok then
    { result := -1, nonce_counter := nonce, array_created := false,
      array_destroyed := false, plain_open := false, websocket_open := false }
  else
    let plain_open := inp.plain_open_ok
    let websocket_open := inp.websocket_port != 0 && inp.websocket_open_ok
    if !plain_open && !websocket_open then
      { result := -1, nonce_counter := nonce, array_created := true,
        array_destroyed := true, plain_open := plain_open,
        websocket_open := websocket_open }
    else
      { result := 0, nonce_counter := nonce, array_created := true,
        array_destroyed := false, plain_open := plain_open,
        websocket_open := websocket_open }

/-- Overwrite a client's `disconnected` flag (the only field of `Client` that
`network_dispatch_response` could in principle depend on but never reads). -/
def client_set_disconnected (b : Bool) (c : Client) : Client :=
  { c with disconnected := b }

/-- Lift `client_set_disconnected` over the client stored in a `deliver`
event; log events are unchanged. -/
def dispatch_event_set_disconnected (b : Bool) : DispatchEvent → DispatchEvent
  | DispatchEvent.deliver c f => DispatchEvent.deliver (client_set_disconnected b c) f
  | e => e

/-- Helper: the selective loop delivers (non-forced) to every client in order
and reports no match when no client has a matching pending request. -/
theorem client_dispatch_scan_no_match (pmatch : Nat → Bool) (clients : List Client)
    (h : ∀ c ∈ clients, pmatch c.name = false) :
    client_dispatch_scan pmatch clients
      = (clients.map (fun c => DispatchEvent.deliver c false), false) := by
  induction clients with
  | nil => rfl
  | cons c rest ih =>
    have hc : pmatch c.name = false := h c (by simp)
    have hr := ih (fun x hx => h x (by simp [hx]))
    simp [client_dispatch_scan, hc, hr]

/-- Helper: the selective loop stops at the first matching client: it delivers
(non-forced) to the non-matching prefix and the first matching client, then
returns reporting a match, never touching the clients after it. -/
theorem client_dispatch_scan_first_match (pmatch : Nat → Bool) (pre post : List Client)
    (m : Client) (hm : pmatch m.name = true) (hpre : ∀ c ∈ pre, pmatch c.name = false) :
    client_dispatch_scan pmatch (pre ++ m :: post)
      = ((pre ++ [m]).map (fun c => DispatchEvent.deliver c false), true) := by
  induction pre with
  | nil => simp [client_dispatch_scan, hm]
  | cons c rest ih =>
    have hc : pmatch c.name = false := hpre c (by simp)
    have hr := ih (fun x hx => hpre x (by simp [hx]))
    simp [client_dispatch_scan, hc, hr]

/-- Helper: the selective loop never reads the `disconnected` flag: rewriting
that flag on every client rewrites it inside the emitted events and changes
nothing else. -/
theorem client_dispatch_scan_set_disconnected (pmatch : Nat → Bool) (b : Bool)
    (clients : List Client) :
    client_dispatch_scan pmatch (clients.map (client_set_disconnected b))
      = ((client_dispatch_scan pmatch clients).1.map (dispatch_event_set_disconnected b),
         (client_dispatch_scan pmatch clients).2) := by
  induction clients with
  | nil => rfl
  | cons c rest ih =>
    by_cases hc : pmatch c.name
    · simp [client_dispatch_scan, client_set_disconnected, dispatch_event_set_disconnected, hc]
    · simp [client_dispatch_scan, client_set_disconnected, dispatch_event_set_disconnected, hc, ih]

/-- C1: for a nonzero-sequence packet and a non-empty registry with a first
matching session, the router logs once, attempts selective (non-forced)
delivery to exactly the sessions up to and including the first match in
registration order, stops there (sessions after the match are never invoked),
and performs no forced delivery at all. -/
theorem network_dispatch_response_first_match (pre post : List Client) (m : Client)
    (seq : Nat) (pmatch : Nat → Bool) (hseq : seq ≠ 0)
    (hm : pmatch m.name = true) (hpre : ∀ c ∈ pre, pmatch c.name = false) :
    network_dispatch_response (pre ++ m :: post) seq pmatch
      = DispatchEvent.log_dispatch_response (pre ++ m :: post).length ::
          (pre ++ [m]).map (fun c => DispatchEvent.deliver c false)
    ∧ ∀ c, DispatchEvent.deliver c true ∉
        network_dispatch_response (pre ++ m :: post) seq pmatch := by
  have hscan := client_dispatch_scan_first_match pmatch pre post m hm hpre
  have heq : network_dispatch_response (pre ++ m :: post) seq pmatch
      = DispatchEvent.log_dispatch_response (pre ++ m :: post).length ::
          (pre ++ [m]).map (fun c => DispatchEvent.deliver c false) := by
    simp [network_dispatch_response, hseq, hscan]
  refine ⟨heq, ?_⟩
  intro c
  rw [heq]
  simp

/-- Helper: the full dispatch trace in the unmatched-response case — one log,
selective delivery to every session, a warning naming the unmatched sequence
number, then forced delivery to every session. -/
theorem dispatch_orphan_fallback_trace (clients : List Client) (seq : Nat)
    (pmatch : Nat → Bool) (hne : clients ≠ []) (hseq : seq ≠ 0)
    (hnom : ∀ c ∈ clients, pmatch c.name = false) :
    network_dispatch_response clients seq pmatch
      = DispatchEvent.log_dispatch_response clients.length ::
          (clients.map (fun c => DispatchEvent.deliver c false) ++
            DispatchEvent.log_warn_unmatched seq ::
              clients.map (fun c => DispatchEvent.deliver c true)) := by
  have hscan := client_dispatch_scan_no_match pmatch clients hnom
  simp [network_dispatch_response, List.length_eq_zero, hne, hseq, hscan]

/-- Helper: the full dispatch trace in the callback case — one log stating
the recipient count, then forced delivery to every session in order. -/
theorem dispatch_callback_broadcast_trace (clients : List Client)
    (pmatch : Nat → Bool) (hne : clients ≠ []) :
    network_dispatch_response clients 0 pmatch
      = DispatchEvent.log_broadcast_callback clients.length ::
          clients.map (fun c => DispatchEvent.deliver c true) := by
  simp [network_dispatch_response, List.length_eq_zero, hne]

/-- C2: for a nonzero-sequence packet and a non-empty registry where no
session reports a match, the router logs once, attempts selective delivery to
every session in registration order, then logs a warning naming the unmatched
sequence number and performs forced delivery to every registered session in
registration order. -/
theorem network_dispatch_response_orphan_fallback (clients : List Client) (seq : Nat)
    (pmatch : Nat → Bool) (hne : clients ≠ []) (hseq : seq ≠ 0)
    (hnom : ∀ c ∈ clients, pmatch c.name = false) :
    network_dispatch_response clients seq pmatch
      = DispatchEvent.log_dispatch_response clients.length ::
          (clients.map (fun c => DispatchEvent.deliver c false) ++
            DispatchEvent.log_warn_unmatched seq ::
              clients.map (fun c => DispatchEvent.deliver c true)) :=
  dispatch_orphan_fallback_trace clients seq pmatch hne hseq hnom

/-- C3: for a sequence-0 packet (a callback) and a non-empty registry, the
router emits a single log stating the recipient count and then invokes forced
delivery on every currently-registered session exactly once, in registration
order. -/
theorem network_dispatch_response_callback_broadcast (clients : List Client)
    (pmatch : Nat → Bool) (hne : clients ≠ []) :
    network_dispatch_response clients 0 pmatch
      = DispatchEvent.log_broadcast_callback clients.length ::
          clients.map (fun c => DispatchEvent.deliver c true) :=
  dispatch_callback_broadcast_trace clients pmatch hne

/-- C8: with zero sessions registered, the router performs no per-session
delivery for either packet kind and only logs a drop notice, a distinct
message for a dropped callback (sequence 0) and a dropped response (nonzero
sequence). -/
theorem network_dispatch_response_empty_drop (seq : Nat) (pmatch : Nat → Bool) :
    network_dispatch_response [] seq pmatch
      = [if seq = 0 then DispatchEvent.log_drop_callback else DispatchEvent.log_drop_response]
    ∧ (∀ c f, DispatchEvent.deliver c f ∉ network_dispatch_response [] seq pmatch)
    ∧ DispatchEvent.log_drop_callback ≠ DispatchEvent.log_drop_response := by
  refine ⟨?_, ?_, by simp⟩
  · by_cases h : seq = 0 <;> simp [network_dispatch_response, h]
  · intro c f
    by_cases h : seq = 0 <;> simp [network_dispatch_response, h]

/-- C10: the router never inspects the `disconnected` flag — rewriting the
flag on every registered session changes the dispatch trace only inside the
delivered client records — and forced delivery (callback broadcast as well as
orphan fallback) is attempted on every registered session even when its
`disconnected` flag is already set. -/
theorem network_dispatch_response_ignores_disconnected (clients : List Client)
    (seq : Nat) (pmatch : Nat → Bool) (b : Bool) :
    (network_dispatch_response (clients.map (client_set_disconnected b)) seq pmatch
      = (network_dispatch_response clients seq pmatch).map
          (dispatch_event_set_disconnected b))
    ∧ ∀ c ∈ clients, c.disconnected = true →
        (seq = 0 ∨ ∀ x ∈ clients, pmatch x.name = false) →
        DispatchEvent.deliver c true ∈ network_dispatch_response clients seq pmatch := by
  constructor
  · by_cases hnil : clients = []
    · subst hnil
      by_cases h : seq = 0 <;>
        simp [network_dispatch_response, dispatch_event_set_disconnected, h]
    · have hlen : clients.length ≠ 0 := by simpa [List.length_eq_zero] using hnil
      by_cases h : seq = 0
      · simp [network_dispatch_response, dispatch_event_set_disconnected, h, hlen,
              List.map_map, Function.comp]
      · have hscan := client_dispatch_scan_set_disconnected pmatch b clients
        by_cases hfound : (client_dispatch_scan pmatch clients).2
        · simp [network_dispatch_response, h, hlen, hscan, hfound,
                dispatch_event_set_disconnected]
        · simp [network_dispatch_response, h, hlen, hscan, hfound,
                dispatch_event_set_disconnected, List.map_map, Function.comp]
  · intro c hc _ hcase
    by_cases h : seq = 0
    · have hne : clients ≠ [] := by rintro rfl; simp at hc
      rw [h, dispatch_callback_broadcast_trace clients pmatch hne]
      exact List.mem_cons_of_mem _ (List.mem_map_of_mem _ hc)
    · have hnom : ∀ x ∈ clients, pmatch x.name = false := by
        rcases hcase with hcase | hcase
        · exact absurd hcase h
        · exact hcase
      have hne : clients ≠ [] := by rintro rfl; simp at hc
      rw [dispatch_orphan_fallback_trace clients seq pmatch hne h hnom]
      refine List.mem_cons_of_mem _ (List.mem_append_right _ ?_)
      exact List.mem_cons_of_mem _ (List.mem_map_of_mem _ hc)

/-- Helper: invariant of the backwards cleanup scan.  Processing indices
`i - 1, …, 0` leaves the entries at positions `≥ i` untouched, replaces the
prefix below `i` by its connected entries, and appends the disconnected
entries of that prefix (highest index first) to the destroyed accumulator. -/
theorem network_cleanup_clients_go_spec (i : Nat) :
    ∀ (cs destroyed : List Client), i ≤ cs.length →
      network_cleanup_clients_go i cs destroyed
        = ((cs.take i).filter (fun c => !c.disconnected) ++ cs.drop i,
           destroyed ++ ((cs.take i).filter (fun c => c.disconnected)).reverse) := by
  induction i with
  | zero => intro cs d _; simp [network_cleanup_clients_go]
  | succ i ih =>
    intro cs d hle
    have hi : i < cs.length := hle
    have hget : cs[i]? = some cs[i] := List.getElem?_eq_getElem hi
    have htklen : (cs.take i).length = i := by
      simp [List.length_take, Nat.min_eq_left (Nat.le_of_lt hi)]
    have htk : (cs.eraseIdx i).take i = cs.take i := by
      rw [List.eraseIdx_eq_take_drop_succ]
      exact List.take_left' htklen
    have hdr : (cs.eraseIdx i).drop i = cs.drop (i + 1) := by
      rw [List.eraseIdx_eq_take_drop_succ]
      exact List.drop_left' htklen
    have htksucc : cs.take (i + 1) = cs.take i ++ [cs[i]] := by
      rw [List.take_succ]
      simp [List.getElem?_eq_getElem hi]
    have hdrcons : cs.drop i = cs[i] :: cs.drop (i + 1) := List.drop_eq_getElem_cons hi
    by_cases hd : cs[i].disconnected
    · have hlen : i ≤ (cs.eraseIdx i).length := by
        have := List.length_eraseIdx_add_one hi
        omega
      rw [network_cleanup_clients_go, hget]
      simp only [hd, if_true]
      rw [ih (cs.eraseIdx i) (d ++ [cs[i]]) hlen, htk, hdr, htksucc,
          List.filter_append, List.filter_append]
      simp [hd, List.reverse_append, List.append_assoc]
    · rw [network_cleanup_clients_go, hget]
      simp only [hd, if_false]
      rw [ih cs d (Nat.le_of_lt hi), htksucc, hdrcons,
          List.filter_append, List.filter_append]
      simp [hd, List.append_assoc]

/-- C4: a single backwards `network_cleanup_clients` pass removes exactly the
clients whose `disconnected` flag is set — every connected client is still
present afterwards — and each removed client is handed to the teardown
contract (`client_destroy`), the higher-indexed ones first. -/
theorem network_cleanup_clients_removes_disconnected (clients : List Client) :
    (network_cleanup_clients clients).1 = clients.filter (fun c => !c.disconnected)
    ∧ (network_cleanup_clients clients).2
        = (clients.filter (fun c => c.disconnected)).reverse
    ∧ ∀ c ∈ clients, c.disconnected = false → c ∈ (network_cleanup_clients clients).1 := by
  have h := network_cleanup_clients_go_spec clients.length clients [] (Nat.le_refl _)
  have h1 : (network_cleanup_clients clients).1
      = clients.filter (fun c => !c.disconnected) := by
    unfold network_cleanup_clients
    rw [h]
    simp
  have h2 : (network_cleanup_clients clients).2
      = (clients.filter (fun c => c.disconnected)).reverse := by
    unfold network_cleanup_clients
    rw [h]
    simp
  refine ⟨h1, h2, ?_⟩
  intro c hc hconn
  rw [h1]
  exact List.mem_filter.mpr ⟨hc, by simp [hconn]⟩

/-- Helper: a run of `N` successful client creations issues the nonces
`counter, counter + 1, …, counter + N - 1`, each reduced modulo `2 ^ 32`, in
creation order. -/
theorem network_create_run_nonces (names : List Nat) :
    ∀ st : NetworkState,
      (network_create_run st names).2.map Client.nonce
        = (List.range names.length).map
            (fun k => (st.next_authentication_nonce + k) % UINT32_MOD) := by
  induction names with
  | nil => intro st; rfl
  | cons n rest ih =>
    intro st
    have hmap : ∀ k : Nat,
        ((st.next_authentication_nonce + 1) % UINT32_MOD + k) % UINT32_MOD
          = (st.next_authentication_nonce + (k + 1)) % UINT32_MOD := by
      intro k
      rw [Nat.mod_add_mod]
      congr 1
      omega
    simp [network_create_run, network_create_client, ih, List.range_succ_eq_map,
          List.map_map, Function.comp, hmap]

/-- Helper: two counter offsets less than one full wrap apart hit different
residues modulo `M`. -/
theorem nonce_offsets_distinct {s i j M : Nat} (hij : i < j) (hjM : j - i < M) :
    (s + i) % M ≠ (s + j) % M := by
  intro he
  have hle : s + i ≤ s + j := by omega
  have hdvd : M ∣ (s + j) - (s + i) := (Nat.modEq_iff_dvd' hle).mp he
  have hM : M ≤ (s + j) - (s + i) := Nat.le_of_dvd (by omega) hdvd
  omega

/-- C5: the nonce allocator hands each successfully created session the
current 32-bit counter value and then increments the counter (mod `2 ^ 32`),
so a run of `N` sequential creations issues the strictly increasing residue
sequence `counter, counter + 1, …` and no two of those sessions receive the
same nonce as long as `N ≤ 2 ^ 32`. -/
theorem network_create_client_nonce_monotone (st : NetworkState) (names : List Nat) :
    ((network_create_run st names).2.map Client.nonce
        = (List.range names.length).map
            (fun k => (st.next_authentication_nonce + k) % UINT32_MOD))
    ∧ (∀ name, (network_create_client st name true true).2.map Client.nonce
        = some (st.next_authentication_nonce % UINT32_MOD))
    ∧ (∀ name client_create_ok,
        (network_create_client st name true client_create_ok).1.next_authentication_nonce
          = (st.next_authentication_nonce + 1) % UINT32_MOD)
    ∧ (names.length ≤ UINT32_MOD → ∀ i j, i < names.length → j < names.length →
        i ≠ j →
        (st.next_authentication_nonce + i) % UINT32_MOD
          ≠ (st.next_authentication_nonce + j) % UINT32_MOD) := by
  refine ⟨network_create_run_nonces names st, ?_, ?_, ?_⟩
  · intro name
    simp [network_create_client]
  · intro name client_create_ok
    by_cases h : client_create_ok <;> simp [network_create_client, h]
  · intro hN i j hi hj hne
    rcases Nat.lt_or_ge i j with hij | hge
    · exact nonce_offsets_distinct hij (by omega)
    · have hji : j < i := by omega
      exact (nonce_offsets_distinct hji (by omega)).symm

/-- C9: when the external `client_create` step fails, `network_create_client`
removes the just-appended slot again — the registry is exactly as before and
NULL is returned — but the post-incremented nonce counter keeps its new
value, so a failed creation consumes a nonce and the nonces of the
surrounding successful creations are two apart rather than consecutive. -/
theorem network_create_client_failed_consumes_nonce (st : NetworkState) (name : Nat) :
    ((network_create_client st name true false).1.clients = st.clients)
    ∧ ((network_create_client st name true false).1.next_authentication_nonce
        = (st.next_authentication_nonce + 1) % UINT32_MOD)
    ∧ ((network_create_client st name true false).2 = none)
    ∧ (∀ n2 n3 : Nat,
        (network_create_client
            ((network_create_client
                ((network_create_client st name true true).1) n2 true false).1)
            n3 true true).2.map Client.nonce
          = some ((st.next_authentication_nonce + 2) % UINT32_MOD)) := by
  refine ⟨rfl, rfl, rfl, ?_⟩
  intro n2 n3
  simp [network_create_client, Nat.mod_add_mod, UINT32_MOD]

/-- C6: `network_open_server_socket` succeeds exactly when every step
(resolution, socket allocation, open, dual-stack toggle when IPv6,
address-reuse toggle when not on Windows, bind, listen, event registration)
succeeds; on every failure it releases exactly the resources acquired before
the failing step, in reverse order of acquisition; and no resource is ever
released twice or released without having been acquired. -/
theorem network_open_server_socket_staged_rollback (inp : OpenInput) :
    ((network_open_server_socket inp).1 = 0 ↔ open_all_ok inp = true)
    ∧ ((network_open_server_socket inp).1 = -1 ↔ open_all_ok inp = false)
    ∧ ((network_open_server_socket inp).1 = -1 →
        (network_open_server_socket inp).2.filterMap socket_action_releases
          = ((network_open_server_socket inp).2.filterMap socket_action_acquires).reverse)
    ∧ ∀ r : SocketResource,
        ((network_open_server_socket inp).2.filterMap socket_action_releases).count r ≤ 1
        ∧ ((network_open_server_socket inp).2.filterMap socket_action_releases).count r
            ≤ ((network_open_server_socket inp).2.filterMap socket_action_acquires).count r := by
  obtain ⟨a, b, c, d, e, f, g, h, i, j⟩ := inp
  cases a <;> cases b <;> cases c <;> cases d <;> cases e <;> cases f <;>
    cases g <;> cases h <;> cases i <;> cases j <;> decide

/-- C7: `network_init` succeeds exactly when at least one configured listener
opened; in particular it succeeds whenever the client array was created and
the plain listener opened (regardless of the WebSocket listener failing or
being disabled via port 0), it fails when the plain listener fails and the
WebSocket listener is disabled or fails, and a failure after the client array
was created destroys that array again. -/
theorem network_init_partial_listener_tolerance (inp : InitInput) :
    ((network_init inp).result = 0
        ↔ ((network_init inp).plain_open || (network_init inp).websocket_open) = true)
    ∧ (inp.array_create_ok = true → inp.plain_open_ok = true →
        (network_init inp).result = 0)
    ∧ (inp.array_create_ok = true → inp.plain_open_ok = false →
        (inp.websocket_port = 0 ∨ inp.websocket_open_ok = false) →
        (network_init inp).result = -1)
    ∧ ((network_init inp).result = -1 → (network_init inp).array_created = true →
        (network_init inp).array_destroyed = true) := by
  obtain ⟨a, rn, ak, pk, wp, wk⟩ := inp
  cases ak <;> cases pk <;> cases wk <;> cases a <;> rcases wp with _ | wp <;>
    simp [network_init]

/-- Witness for C1: three registered clients, only the second one matches —
the dispatch trace is one log followed by selective delivery to the first two
clients only. -/
theorem network_dispatch_response_first_match_witness :
    network_dispatch_response
        [⟨1, 0, false⟩, ⟨2, 0, false⟩, ⟨3, 0, false⟩] 5 (fun n => n == 2)
      = [DispatchEvent.log_dispatch_response 3,
         DispatchEvent.deliver ⟨1, 0, false⟩ false,
         DispatchEvent.deliver ⟨2, 0, false⟩ false] :=
  (network_dispatch_response_first_match [⟨1, 0, false⟩] [⟨3, 0, false⟩]
    ⟨2, 0, false⟩ 5 (fun n => n == 2) (by decide) (by decide) (by decide)).1

/-- Witness for C2: two registered clients, no match for sequence number 9 —
selective delivery to both, then the warning, then forced delivery to both. -/
theorem network_dispatch_response_orphan_fallback_witness :
    network_dispatch_response [⟨1, 0, false⟩, ⟨2, 0, false⟩] 9 (fun _ => false)
      = [DispatchEvent.log_dispatch_response 2,
         DispatchEvent.deliver ⟨1, 0, false⟩ false,
         DispatchEvent.deliver ⟨2, 0, false⟩ false,
         DispatchEvent.log_warn_unmatched 9,
         DispatchEvent.deliver ⟨1, 0, false⟩ true,
         DispatchEvent.deliver ⟨2, 0, false⟩ true] :=
  network_dispatch_response_orphan_fallback [⟨1, 0, false⟩, ⟨2, 0, false⟩] 9
    (fun _ => false) (by decide) (by decide) (by decide)

/-- Witness for C3: a callback with three registered clients is broadcast,
forced, to all three after a single count log. -/
theorem network_dispatch_response_callback_broadcast_witness :
    network_dispatch_response
        [⟨1, 0, false⟩, ⟨2, 0, false⟩, ⟨3, 0, false⟩] 0 (fun _ => false)
      = [DispatchEvent.log_broadcast_callback 3,
         DispatchEvent.deliver ⟨1, 0, false⟩ true,
         DispatchEvent.deliver ⟨2, 0, false⟩ true,
         DispatchEvent.deliver ⟨3, 0, false⟩ true] :=
  network_dispatch_response_callback_broadcast
    [⟨1, 0, false⟩, ⟨2, 0, false⟩, ⟨3, 0, false⟩] (fun _ => false) (by decide)

/-- Witness for C4: after cleaning a registry with one disconnected and one
connected client, the connected one is still present. -/
theorem network_cleanup_clients_removes_disconnected_witness :
    (⟨2, 0, false⟩ : Client)
      ∈ (network_cleanup_clients [⟨1, 0, true⟩, ⟨2, 0, false⟩]).1 :=
  (network_cleanup_clients_removes_disconnected [⟨1, 0, true⟩, ⟨2, 0, false⟩]).2.2
    ⟨2, 0, false⟩ (by decide) (by decide)

/-- Witness for C5: two sequential creations from counter 7 issue distinct
nonces. -/
theorem network_create_client_nonce_monotone_witness :
    (7 + 0) % UINT32_MOD ≠ (7 + 1) % UINT32_MOD :=
  (network_create_client_nonce_monotone ⟨[], 7⟩ [10, 20]).2.2.2
    (by decide) 0 1 (by decide) (by decide) (by decide)

/-- Witness for C6: when `socket_open` fails, the rollback releases exactly
the two acquired resources (socket, then resolved-address list), the reverse
of their acquisition order. -/
theorem network_open_server_socket_staged_rollback_witness :
    (network_open_server_socket
        ⟨true, true, false, false, true, false, true, true, true, true⟩).2.filterMap
          socket_action_releases
      = ((network_open_server_socket
          ⟨true, true, false, false, true, false, true, true, true, true⟩).2.filterMap
            socket_action_acquires).reverse :=
  (network_open_server_socket_staged_rollback
    ⟨true, true, false, false, true, false, true, true, true, true⟩).2.2.1 (by decide)

/-- Witness for C7: with the client array created, the plain listener open
and the WebSocket listener disabled via port 0, init succeeds. -/
theorem network_init_partial_listener_tolerance_witness :
    (network_init ⟨false, 0, true, true, 0, false⟩).result = 0 :=
  (network_init_partial_listener_tolerance ⟨false, 0, true, true, 0, false⟩).2.1
    rfl rfl

/-- Witness for C8: with an empty registry no delivery event occurs for a
callback packet. -/
theorem network_dispatch_response_empty_drop_witness :
    DispatchEvent.deliver ⟨1, 0, false⟩ true
      ∉ network_dispatch_response [] 0 (fun _ => false) :=
  (network_dispatch_response_empty_drop 0 (fun _ => false)).2.1 ⟨1, 0, false⟩ true

/-- Witness for C10: a client already marked disconnected still receives the
forced callback broadcast. -/
theorem network_dispatch_response_ignores_disconnected_witness :
    DispatchEvent.deliver ⟨1, 0, true⟩ true
      ∈ network_dispatch_response [⟨1, 0, true⟩] 0 (fun _ => false) :=
  (network_dispatch_response_ignores_disconnected [⟨1, 0, true⟩] 0
    (fun _ => false) true).2 ⟨1, 0, true⟩ (by decide) rfl (Or.inl rfl)
